import Mathlib

/-! Shallow embedding of `deadlink-detector.py` (single-file Python crawler).

The crawler keeps process-wide mutable state (a visited set, a broken-link
table mirrored into a CSV log, and four counters); we model it as an explicit
`CrawlState` record threaded through the functions.  Network effects
(`requests.head`, `requests.get` + `raise_for_status`, and the standard
library's `urljoin`) are external collaborators and enter as an `Env` of
response functions.  The recursive `crawl_page` is made total with a fuel
parameter; fuel exhaustion returns the state unchanged and is a modelling
artifact only.  The `fetched` field is instrumentation: it records, in order,
every URL for which a page GET is issued, so that "fetched at most once" is
expressible.
-/

namespace Deadlink

/-- Result of a broken-link probe in the Python code: either an HTTP status
code (an `int`) or the string of a caught exception. -/
inductive PyErr where
  | status (code : Nat)
  | exc (msg : String)
deriving DecidableEq, Repr

/-- Python truthiness of the `err` value tested by `if err:` — an `int` is
truthy iff nonzero, a `str` iff nonempty. -/
def pyTruthy : PyErr → Bool
  | .status c => c ≠ 0
  | .exc m => m ≠ ""

/-- Rendering of the `err` value when written to the CSV log (Python's `csv`
module stringifies each cell). -/
def pyErrToString : PyErr → String
  | .status c => toString c
  | .exc m => m

/-- Python's `str.startswith`, at the code-point level: `s.startswith(p)`. -/
def startswith (s p : String) : Bool :=
  p.data.isPrefixOf s.data

/-- Line 84 / 113 / 133: a URL counts as internal iff its string starts with
the `start_url` global, exactly as supplied on the command line. -/
def classifyInternal (start_url url : String) : Bool :=
  startswith url start_url

/-- Line 79 / 110: `url.split('#')[0]` — the code points before the first
`#`, the whole string when there is none. -/
def stripFragment (url : String) : String :=
  String.mk (url.data.takeWhile (fun c => c ≠ '#'))

/-- Line 51: `is_http_url` — defined in the script (scheme validation helper)
but never called from `__main__`. -/
def is_http_url (url : String) : Bool :=
  startswith url "http://" || startswith url "https://"

/-- The external collaborators: URL resolution (`urllib.parse.urljoin`) and
the two network requests.  `head` models `requests.head(url,
allow_redirects=True, timeout=...)`: the final status code, or the message of
a raised exception.  `get` models `requests.get(url, timeout=...)` followed by
`raise_for_status()` and anchor-href extraction by BeautifulSoup: either the
extracted href attributes in document order, or the message of the raised
exception (transport failure or HTTP error status). -/
structure Env where
  urljoin : String → String → String
  head : String → Except String Nat
  get : String → Except String (List String)

/-- The globals set from CLI arguments (lines 31-37 / 179-186). -/
structure Config where
  start_url : String
  use_external : Bool
  max_internal : Int
  max_external : Int

/-- The process-wide mutable state (lines 23-28), plus the `fetched`
instrumentation trace of issued page GETs. -/
structure CrawlState where
  visited : List String
  broken_links : List (String × String × String)
  csv_rows : List (String × String × String)
  page_counter : Nat
  link_counter : Nat
  ok_counter : Nat
  broken_counter : Nat
  fetched : List String
deriving DecidableEq, Repr

/-- State at program start: empty registry, zero counters. -/
def initState : CrawlState :=
  { visited := [], broken_links := [], csv_rows := [], page_counter := 0,
    link_counter := 0, ok_counter := 0, broken_counter := 0, fetched := [] }

/-- Lines 94-95 plus the GET about to be issued: add the normalized URL to
the visited set, bump `page_counter`, and trace the page fetch. -/
def markFetch (st : CrawlState) (normalized : String) : CrawlState :=
  { st with visited := normalized :: st.visited,
            page_counter := st.page_counter + 1,
            fetched := st.fetched ++ [normalized] }

/-- Lines 103-104 / 128-129: append one broken-link record to the in-memory
table and the CSV log. -/
def recordBroken (st : CrawlState) (source bad err : String) : CrawlState :=
  { st with broken_links := st.broken_links ++ [(source, bad, err)],
            csv_rows := st.csv_rows ++ [(source, bad, err)] }

/-- Lines 59-73: `check_link(base_url, link_url)`.  Resolves the href, bumps
`link_counter`, issues the HEAD probe; status ≥ 400 bumps `broken_counter`
and returns `(full_url, status)`; a raised exception bumps `broken_counter`
and returns `(full_url, str(e))`; otherwise bumps `ok_counter` and returns
`(None, None)`. -/
def check_link (env : Env) (base_url link_url : String) (st : CrawlState) :
    Option (String × PyErr) × CrawlState :=
  let full_url := env.urljoin base_url link_url
  let st := { st with link_counter := st.link_counter + 1 }
  match env.head full_url with
  | .ok code =>
      if 400 ≤ code then
        (some (full_url, .status code),
         { st with broken_counter := st.broken_counter + 1 })
      else
        (none, { st with ok_counter := st.ok_counter + 1 })
  | .error e =>
      (some (full_url, .exc e),
       { st with broken_counter := st.broken_counter + 1 })

/-- Lines 126-129: `bad, err = check_link(normalized, href)` followed by
`if err:` — log a broken-link record when the returned error value is
truthy. -/
def checkAndLog (env : Env) (normalized href : String) (st : CrawlState) :
    CrawlState :=
  let r := check_link env normalized href st
  match r.1 with
  | some (bad, e) =>
      if pyTruthy e = true then recordBroken r.2 normalized bad (pyErrToString e)
      else r.2
  | none => r.2

/-- Lines 108-138, one iteration of the per-link loop of `crawl_page`: resolve
the href and strip the fragment; skip the link entirely when it is external
and `use_external` is off (the `continue` at line 114); otherwise check it
(recording a row if broken) and recurse — through the `recurse` callback,
which stands for the recursive `crawl_page` call — when the depth guard at
lines 131-138 allows. -/
def processLink (env : Env) (cfg : Config)
    (recurse : String → Int → CrawlState → CrawlState)
    (normalized : String) (depth : Int) (href : String) (st : CrawlState) :
    CrawlState :=
  let full := stripFragment (env.urljoin normalized href)
  if classifyInternal cfg.start_url full = false ∧ cfg.use_external = false then
    st
  else
    let st2 := checkAndLog env normalized href st
    let next_depth := depth + 1
    if classifyInternal cfg.start_url full = true then
      if next_depth ≤ cfg.max_internal then recurse full next_depth st2 else st2
    else
      if cfg.use_external = true ∧ next_depth ≤ cfg.max_external then
        recurse full next_depth st2
      else st2

/-- The per-link loop over the hrefs extracted from one page, in document
order. -/
def process_links (env : Env) (cfg : Config)
    (recurse : String → Int → CrawlState → CrawlState)
    (normalized : String) (depth : Int) :
    List String → CrawlState → CrawlState
  | [], st => st
  | href :: rest, st =>
      process_links env cfg recurse normalized depth rest
        (processLink env cfg recurse normalized depth href st)

/-- Lines 94-110: past the gate — record the visit, issue the GET; on
failure record a `PAGE LOAD ERROR` row against the page itself and stop; on
success process the extracted links in document order. -/
def crawl_fetch (env : Env) (cfg : Config)
    (recurse : String → Int → CrawlState → CrawlState)
    (normalized : String) (depth : Int) (st : CrawlState) : CrawlState :=
  let st1 := markFetch st normalized
  match env.get normalized with
  | .error e => recordBroken st1 normalized normalized ("PAGE LOAD ERROR: " ++ e)
  | .ok hrefs => process_links env cfg recurse normalized depth hrefs st1

/-- Lines 75-140: `crawl_page(url, depth)`.  Strip the fragment, return if
already visited, apply the internal/external depth gate, then fetch and
process the page (`crawl_fetch`), recursing with one unit of fuel fewer. -/
def crawl_page (env : Env) (cfg : Config) :
    Nat → String → Int → CrawlState → CrawlState
  | 0, _, _, st => st
  | fuel + 1, url, depth, st =>
    let normalized := stripFragment url
    if normalized ∈ st.visited then st
    else
      if classifyInternal cfg.start_url normalized = true then
        if depth > cfg.max_internal then st
        else crawl_fetch env cfg (crawl_page env cfg fuel) normalized depth st
      else
        if cfg.use_external = false ∨ depth > cfg.max_external then st
        else crawl_fetch env cfg (crawl_page env cfg fuel) normalized depth st

/-- Outcome of the `__main__` block: the process exit status and the final
crawl state. -/
structure MainResult where
  exitCode : Nat
  finalState : CrawlState
deriving DecidableEq, Repr

/-- Lines 176-201: the `__main__` block.  It assigns the globals from the
parsed arguments, truncates the CSV log and writes the header, prints a
banner, runs `crawl_page(start_url, depth=0)` and prints the final report.
It never consults `is_http_url` and always finishes with exit status 0. -/
def run_main (env : Env) (cfg : Config) (fuel : Nat) : MainResult :=
  { exitCode := 0,
    finalState := crawl_page env cfg fuel cfg.start_url 0 initState }

/-- Modelled from the spec: the seed's origin, "scheme+host+optional port of
the seed URL, exactly as supplied" — the scheme, the `://` separator, and the
authority up to the next `/`.  The script itself has no such function; the
spec's `classify` description refers to this string. -/
def seedOriginSpec (url : String) : String :=
  let cs := url.data
  let scheme := cs.takeWhile (fun c => c ≠ ':')
  let rest := cs.drop (scheme.length + 3)
  let authority := rest.takeWhile (fun c => c ≠ '/')
  String.mk (scheme ++ (':' :: '/' :: '/' :: []) ++ authority)

/-! Concrete worlds used to evaluate the model at specific inputs. -/

/-- A world where every page is empty and every probe answers 200. -/
def trivEnv : Env :=
  { urljoin := fun _ h => h, head := fun _ => .ok 200, get := fun _ => .ok [] }

/-- A world where the seed page `http://s/` carries a single link to the
external site `http://e/`, and every probe fails at the transport level. -/
def extEnv : Env :=
  { urljoin := fun _ h => h,
    head := fun _ => .error "refused",
    get := fun u => if u = "http://s/" then .ok ["http://e/"] else .ok [] }

/-- A world where the seed page `http://s/` links to itself through a
fragment, and every probe answers 200. -/
def loopEnv : Env :=
  { urljoin := fun _ h => h,
    head := fun _ => .ok 200,
    get := fun u => if u = "http://s/" then .ok ["http://s/#sec"] else .ok [] }

/-- A world where every page GET fails (e.g. an HTTP error status raised by
`raise_for_status`, or no connection adapter for a non-http scheme). -/
def errEnv : Env :=
  { urljoin := fun _ h => h,
    head := fun _ => .ok 200,
    get := fun _ => .error "404 Client Error" }

/-- Seed `http://s/`, external links disabled, default depth limits. -/
def extCfg : Config :=
  { start_url := "http://s/", use_external := false,
    max_internal := 5, max_external := 0 }

/-- Seed `http://s/`, external links enabled with the default external depth
0. -/
def extOnCfg : Config :=
  { start_url := "http://s/", use_external := true,
    max_internal := 5, max_external := 0 }

/-- A seed with a non-http scheme, as handed over verbatim by `parse_args`
— `__main__` assigns it to `start_url` without validation. -/
def ftpCfg : Config :=
  { start_url := "ftp://a/", use_external := false,
    max_internal := 5, max_external := 0 }

/-- The world seen when crawling an `ftp://` seed: `requests.get` raises
`InvalidSchema` (no connection adapters), which `crawl_page` catches like any
other page-load failure. -/
def ftpEnv : Env :=
  { urljoin := fun _ h => h,
    head := fun _ => .error "no adapters",
    get := fun _ => .error "No connection adapters were found" }

/-! Predicates on the crawl state used by the verification. -/

/-- The dedup invariant of the Visited Registry: the trace of page GETs has
no duplicates, and every URL ever fetched is in the visited set. -/
def FetchInv (st : CrawlState) : Prop :=
  st.fetched.Nodup ∧ ∀ u ∈ st.fetched, u ∈ st.visited

/-- The counter consistency invariant: every checked link was counted as OK
or as broken. -/
def CountInv (st : CrawlState) : Prop :=
  st.link_counter = st.ok_counter + st.broken_counter

/-- A lower bound on the number of links checked so far. -/
def LinkLB (n : Nat) (st : CrawlState) : Prop :=
  n ≤ st.link_counter

/-- A given URL occurs in the trace of page GETs. -/
def FetchedMem (u : String) (st : CrawlState) : Prop :=
  u ∈ st.fetched

/-- A given URL has been recorded in the visited set. -/
def VisitedMem (u : String) (st : CrawlState) : Prop :=
  u ∈ st.visited

/-! Effect lemmas for the primitive state transformers, and a generic
preservation principle for predicates on the crawl state. -/

theorem check_link_fields (env : Env) (b l : String) (st : CrawlState) :
    (check_link env b l st).2.visited = st.visited ∧
    (check_link env b l st).2.fetched = st.fetched ∧
    (check_link env b l st).2.page_counter = st.page_counter ∧
    (check_link env b l st).2.link_counter = st.link_counter + 1 ∧
    (check_link env b l st).2.ok_counter + (check_link env b l st).2.broken_counter
      = st.ok_counter + st.broken_counter + 1 := by
  rcases hE : env.head (env.urljoin b l) with e | c
  · simp [check_link, hE]
    omega
  · by_cases h4 : 400 ≤ c
    · simp [check_link, hE, h4]
      omega
    · simp [check_link, hE, h4]
      omega

theorem checkAndLog_fields (env : Env) (n h : String) (st : CrawlState) :
    (checkAndLog env n h st).visited = st.visited ∧
    (checkAndLog env n h st).fetched = st.fetched ∧
    (checkAndLog env n h st).page_counter = st.page_counter ∧
    (checkAndLog env n h st).link_counter = st.link_counter + 1 ∧
    (checkAndLog env n h st).ok_counter + (checkAndLog env n h st).broken_counter
      = st.ok_counter + st.broken_counter + 1 := by
  obtain ⟨h1, h2, h3, h4, h5⟩ := check_link_fields env n h st
  unfold checkAndLog
  rcases hr : (check_link env n h st).1 with _ | ⟨bad, e⟩
  · simpa [hr] using ⟨h1, h2, h3, h4, h5⟩
  · by_cases ht : pyTruthy e = true
    · simp [hr, ht, recordBroken]
      exact ⟨h1, h2, h3, h4, h5⟩
    · simp [hr, ht]
      exact ⟨h1, h2, h3, h4, h5⟩

section Preservation

variable {env : Env} {cfg : Config} {P : CrawlState → Prop}

theorem processLink_pres
    (recurse : String → Int → CrawlState → CrawlState)
    (hStep : ∀ n h st, P st → P (checkAndLog env n h st))
    (hrec : ∀ u d st, P st → P (recurse u d st))
    (normalized : String) (depth : Int) (href : String) (st : CrawlState)
    (h : P st) : P (processLink env cfg recurse normalized depth href st) := by
  simp only [processLink]
  split
  · exact h
  · have h2 := hStep normalized href st h
    split
    · split
      · exact hrec _ _ _ h2
      · exact h2
    · split
      · exact hrec _ _ _ h2
      · exact h2

theorem process_links_pres
    (recurse : String → Int → CrawlState → CrawlState)
    (hStep : ∀ n h st, P st → P (checkAndLog env n h st))
    (hrec : ∀ u d st, P st → P (recurse u d st))
    (normalized : String) (depth : Int) :
    ∀ (links : List String) (st : CrawlState),
      P st → P (process_links env cfg recurse normalized depth links st) := by
  intro links
  induction links with
  | nil => intro st h; exact h
  | cons href rest ih =>
      intro st h
      simp only [process_links]
      exact ih _ (processLink_pres recurse hStep hrec normalized depth href st h)

theorem crawl_fetch_pres
    (recurse : String → Int → CrawlState → CrawlState)
    (hMark : ∀ st n, n ∉ st.visited → P st → P (markFetch st n))
    (hRecord : ∀ st s b e, P st → P (recordBroken st s b e))
    (hStep : ∀ n h st, P st → P (checkAndLog env n h st))
    (hrec : ∀ u d st, P st → P (recurse u d st))
    (normalized : String) (depth : Int) (st : CrawlState)
    (hv : normalized ∉ st.visited) (h : P st) :
    P (crawl_fetch env cfg recurse normalized depth st) := by
  have h1 : P (markFetch st normalized) := hMark st normalized hv h
  simp only [crawl_fetch]
  rcases hE : env.get normalized with e | hrefs
  · simp only [hE]
    exact hRecord _ _ _ _ h1
  · simp only [hE]
    exact process_links_pres recurse hStep hrec normalized depth hrefs _ h1

theorem crawl_page_pres
    (hMark : ∀ st n, n ∉ st.visited → P st → P (markFetch st n))
    (hRecord : ∀ st s b e, P st → P (recordBroken st s b e))
    (hStep : ∀ n h st, P st → P (checkAndLog env n h st)) :
    ∀ (fuel : Nat) (url : String) (depth : Int) (st : CrawlState),
      P st → P (crawl_page env cfg fuel url depth st) := by
  intro fuel
  induction fuel with
  | zero => intro url depth st h; exact h
  | succ n ih =>
      intro url depth st h
      simp only [crawl_page]
      split
      · exact h
      · rename_i hvis
        split
        · split
          · exact h
          · exact crawl_fetch_pres _ hMark hRecord hStep
              (fun u d s hs => ih u d s hs) _ _ _ hvis h
        · split
          · exact h
          · exact crawl_fetch_pres _ hMark hRecord hStep
              (fun u d s hs => ih u d s hs) _ _ _ hvis h

end Preservation

/-! The generic principle instantiated at the predicates above. -/

theorem crawl_page_fetchInv (env : Env) (cfg : Config) (fuel : Nat)
    (url : String) (depth : Int) (st : CrawlState) (h : FetchInv st) :
    FetchInv (crawl_page env cfg fuel url depth st) := by
  refine crawl_page_pres ?_ ?_ ?_ fuel url depth st h
  · intro st n hv hp
    obtain ⟨hnd, hsub⟩ := hp
    have hnf : n ∉ st.fetched := fun hm => hv (hsub n hm)
    constructor
    · simp [markFetch, List.nodup_append, hnd, hnf]
    · intro u hu
      simp only [markFetch, List.mem_append, List.mem_singleton] at hu
      rcases hu with hu | hu
      · exact List.mem_cons_of_mem _ (hsub u hu)
      · exact hu ▸ List.mem_cons_self _ _
  · intro st s b e hp
    exact hp
  · intro n hr st hp
    obtain ⟨f1, f2, _, _, _⟩ := checkAndLog_fields env n hr st
    refine ⟨?_, ?_⟩
    · rw [f2]; exact hp.1
    · intro u hu
      rw [f2] at hu
      rw [f1]
      exact hp.2 u hu

theorem crawl_page_countInv (env : Env) (cfg : Config) (fuel : Nat)
    (url : String) (depth : Int) (st : CrawlState) (h : CountInv st) :
    CountInv (crawl_page env cfg fuel url depth st) := by
  refine crawl_page_pres ?_ ?_ ?_ fuel url depth st h
  · intro st n _ hp; exact hp
  · intro st s b e hp; exact hp
  · intro n hr st hp
    obtain ⟨_, _, _, f4, f5⟩ := checkAndLog_fields env n hr st
    unfold CountInv at hp ⊢
    omega

theorem crawl_page_linkLB (env : Env) (cfg : Config) (n : Nat) (fuel : Nat)
    (url : String) (depth : Int) (st : CrawlState) (h : LinkLB n st) :
    LinkLB n (crawl_page env cfg fuel url depth st) := by
  refine crawl_page_pres ?_ ?_ ?_ fuel url depth st h
  · intro st m _ hp; exact hp
  · intro st s b e hp; exact hp
  · intro a b stx hp
    obtain ⟨_, _, _, f4, _⟩ := checkAndLog_fields env a b stx
    unfold LinkLB at hp ⊢
    omega

theorem process_links_linkLB (env : Env) (cfg : Config) (n : Nat) (fuel : Nat)
    (normalized : String) (depth : Int) (links : List String) (st : CrawlState)
    (h : LinkLB n st) :
    LinkLB n (process_links env cfg (crawl_page env cfg fuel) normalized depth
      links st) := by
  refine process_links_pres _ ?_ ?_ normalized depth links st h
  · intro a b stx hp
    obtain ⟨_, _, _, f4, _⟩ := checkAndLog_fields env a b stx
    unfold LinkLB at hp ⊢
    omega
  · intro u d stx hp
    exact crawl_page_linkLB env cfg n fuel u d stx hp

theorem crawl_page_fetchedMem (env : Env) (cfg : Config) (u : String)
    (fuel : Nat) (url : String) (depth : Int) (st : CrawlState)
    (h : FetchedMem u st) :
    FetchedMem u (crawl_page env cfg fuel url depth st) := by
  refine crawl_page_pres ?_ ?_ ?_ fuel url depth st h
  · intro st n _ hp
    unfold FetchedMem at hp ⊢
    unfold markFetch
    simp only [List.mem_append, List.mem_singleton]
    exact Or.inl hp
  · intro st s b e hp; exact hp
  · intro a b stx hp
    obtain ⟨_, f2, _, _, _⟩ := checkAndLog_fields env a b stx
    unfold FetchedMem at hp ⊢
    rw [f2]
    exact hp

/-- Past the gate, the page itself always ends up in the fetch trace. -/
theorem crawl_fetch_mem (env : Env) (cfg : Config) (fuel : Nat)
    (normalized : String) (depth : Int) (st : CrawlState) :
    normalized ∈ (crawl_fetch env cfg (crawl_page env cfg fuel) normalized
      depth st).fetched := by
  have hmem : FetchedMem normalized (markFetch st normalized) := by
    unfold FetchedMem markFetch
    simp
  simp only [crawl_fetch]
  rcases hE : env.get normalized with e | hrefs
  · simp only [hE]
    exact hmem
  · simp only [hE]
    refine process_links_pres _ ?_ ?_ normalized depth hrefs _ hmem
    · intro a b stx hp
      obtain ⟨_, f2, _, _, _⟩ := checkAndLog_fields env a b stx
      unfold FetchedMem at hp ⊢
      rw [f2]
      exact hp
    · intro u d stx hp
      exact crawl_page_fetchedMem env cfg normalized fuel u d stx hp

theorem crawl_page_visitedMem (env : Env) (cfg : Config) (u : String)
    (fuel : Nat) (url : String) (depth : Int) (st : CrawlState)
    (h : VisitedMem u st) :
    VisitedMem u (crawl_page env cfg fuel url depth st) := by
  refine crawl_page_pres ?_ ?_ ?_ fuel url depth st h
  · intro st n _ hp
    unfold VisitedMem at hp ⊢
    unfold markFetch
    exact List.mem_cons_of_mem _ hp
  · intro st s b e hp; exact hp
  · intro a b stx hp
    obtain ⟨f1, _, _, _, _⟩ := checkAndLog_fields env a b stx
    unfold VisitedMem at hp ⊢
    rw [f1]
    exact hp

/-- Past the gate, the page itself always ends up in the visited set. -/
theorem crawl_fetch_visited_mem (env : Env) (cfg : Config) (fuel : Nat)
    (normalized : String) (depth : Int) (st : CrawlState) :
    normalized ∈ (crawl_fetch env cfg (crawl_page env cfg fuel) normalized
      depth st).visited := by
  have hmem : VisitedMem normalized (markFetch st normalized) := by
    unfold VisitedMem markFetch
    exact List.mem_cons_self _ _
  simp only [crawl_fetch]
  rcases hE : env.get normalized with e | hrefs
  · simp only [hE]
    exact hmem
  · simp only [hE]
    refine process_links_pres _ ?_ ?_ normalized depth hrefs _ hmem
    · intro a b stx hp
      obtain ⟨f1, _, _, _, _⟩ := checkAndLog_fields env a b stx
      unfold VisitedMem at hp ⊢
      rw [f1]
      exact hp
    · intro u d stx hp
      exact crawl_page_visitedMem env cfg normalized fuel u d stx hp

/-- When the gate passes and the GET for the page raises, `crawl_page` is
exactly: record the visit, then log one `PAGE LOAD ERROR` row against the
page itself, and return. -/
theorem crawl_page_get_error (env : Env) (cfg : Config) (fuel : Nat)
    (url : String) (depth : Int) (st : CrawlState) (e : String)
    (hv : stripFragment url ∉ st.visited)
    (hgate : (classifyInternal cfg.start_url (stripFragment url) = true ∧
        depth ≤ cfg.max_internal) ∨
      (classifyInternal cfg.start_url (stripFragment url) = false ∧
        cfg.use_external = true ∧ depth ≤ cfg.max_external))
    (hget : env.get (stripFragment url) = .error e) :
    crawl_page env cfg (fuel + 1) url depth st =
      recordBroken (markFetch st (stripFragment url)) (stripFragment url)
        (stripFragment url) ("PAGE LOAD ERROR: " ++ e) := by
  simp only [crawl_page]
  rw [if_neg hv]
  rcases hgate with ⟨h1, h2⟩ | ⟨h1, h2, h3⟩
  · have hnd : ¬ depth > cfg.max_internal := by omega
    rw [if_pos h1, if_neg hnd]
    simp only [crawl_fetch, hget]
  · have hnd : ¬ (cfg.use_external = false ∨ depth > cfg.max_external) := by
      rintro (hf | hgt)
      · rw [h2] at hf
        exact Bool.noConfusion hf
      · omega
    rw [if_neg (by simp [h1]), if_neg hnd]
    simp only [crawl_fetch, hget]

/-- Characterization of `List.isPrefixOf` on character lists. -/
theorem isPrefixOf_iff_append :
    ∀ (p l : List Char), p.isPrefixOf l = true ↔ ∃ t, l = p ++ t := by
  intro p
  induction p with
  | nil =>
      intro l
      constructor
      · intro _; exact ⟨l, rfl⟩
      · intro _
        cases l with
        | nil => rfl
        | cons b bs => rfl
  | cons a as ih =>
      intro l
      cases l with
      | nil =>
          constructor
          · intro h; exact absurd h (by simp [List.isPrefixOf])
          · rintro ⟨t, ht⟩; exact absurd ht (by simp)
      | cons b bs =>
          rw [show ((a :: as).isPrefixOf (b :: bs)) = (a == b && as.isPrefixOf bs)
            from rfl]
          simp only [Bool.and_eq_true, beq_iff_eq, ih bs]
          constructor
          · rintro ⟨rfl, t, rfl⟩
            exact ⟨t, rfl⟩
          · rintro ⟨t, ht⟩
            injection ht with h1 h2
            exact ⟨h1.symm, t, h2⟩

/-- Characterization of the Python-level `startswith` on strings. -/
theorem startswith_iff_append (s p : String) :
    startswith s p = true ↔ ∃ t, s = p ++ t := by
  unfold startswith
  rw [isPrefixOf_iff_append]
  constructor
  · rintro ⟨t, ht⟩
    refine ⟨String.mk t, String.ext ?_⟩
    rw [String.data_append]
    exact ht
  · rintro ⟨t, rfl⟩
    exact ⟨t.data, by rw [String.data_append]⟩

/-! The claims. -/

/-- C1: in every crawl run each NormalizedURL is fetched (GET) at most once —
`crawl_page` returns immediately, without fetching, whenever the
fragment-stripped URL is already in the visited set, and over a whole run
from the initial state the trace of issued page GETs never repeats a URL,
whatever link structure (including multiple paths and self-loops) the world
presents. -/
theorem c1_fetch_at_most_once (env : Env) (cfg : Config) (fuel : Nat)
    (url : String) (depth : Int) (st : CrawlState)
    (h : stripFragment url ∈ st.visited) :
    crawl_page env cfg fuel url depth st = st ∧
    (crawl_page env cfg fuel url depth initState).fetched.Nodup := by
  constructor
  · cases fuel with
    | zero => rfl
    | succ n =>
        simp only [crawl_page]
        rw [if_pos h]
  · have hinit : FetchInv initState := ⟨List.nodup_nil, by intro u hu; cases hu⟩
    exact (crawl_page_fetchInv env cfg fuel url depth initState hinit).1

theorem c1_fetch_at_most_once_witness :
    crawl_page trivEnv extCfg 4 "http://s/#x" 0
        { initState with visited := ["http://s/"] } =
      { initState with visited := ["http://s/"] } ∧
    (crawl_page trivEnv extCfg 4 "http://s/#x" 0 initState).fetched.Nodup :=
  c1_fetch_at_most_once trivEnv extCfg 4 "http://s/#x" 0
    { initState with visited := ["http://s/"] } (by decide)

/-- C2: the depth budget is enforced at the entry of `crawl_page` — an
internal task with `depth > max_internal`, or an external task with
`use_external` off or `depth > max_external`, returns without any fetch;
a task at depth exactly the applicable maximum is fetched; and the recursion
guard at lines 131-138 performs no recursive call for a link whose next
depth exceeds the applicable maximum (the iteration reduces to the liveness
check alone). -/
theorem c2_depth_gate (env : Env) (cfg : Config) (fuel : Nat) (url : String)
    (depth : Int) (st : CrawlState) :
    (classifyInternal cfg.start_url (stripFragment url) = true →
      depth > cfg.max_internal →
      crawl_page env cfg fuel url depth st = st) ∧
    (classifyInternal cfg.start_url (stripFragment url) = false →
      (cfg.use_external = false ∨ depth > cfg.max_external) →
      crawl_page env cfg fuel url depth st = st) ∧
    (stripFragment url ∉ st.visited →
      classifyInternal cfg.start_url (stripFragment url) = true →
      depth = cfg.max_internal → 0 < fuel →
      stripFragment url ∈ (crawl_page env cfg fuel url depth st).fetched) ∧
    (stripFragment url ∉ st.visited →
      classifyInternal cfg.start_url (stripFragment url) = false →
      cfg.use_external = true → depth = cfg.max_external → 0 < fuel →
      stripFragment url ∈ (crawl_page env cfg fuel url depth st).fetched) ∧
    (∀ (recurse : String → Int → CrawlState → CrawlState) (normalized href : String),
      classifyInternal cfg.start_url (stripFragment (env.urljoin normalized href)) = true →
      depth + 1 > cfg.max_internal →
      processLink env cfg recurse normalized depth href st =
        checkAndLog env normalized href st) ∧
    (∀ (recurse : String → Int → CrawlState → CrawlState) (normalized href : String),
      classifyInternal cfg.start_url (stripFragment (env.urljoin normalized href)) = false →
      cfg.use_external = true → depth + 1 > cfg.max_external →
      processLink env cfg recurse normalized depth href st =
        checkAndLog env normalized href st) := by
  refine ⟨?_, ?_, ?_, ?_, ?_, ?_⟩
  · intro h1 h2
    cases fuel with
    | zero => rfl
    | succ n =>
        simp only [crawl_page]
        split
        · rfl
        · simp [h1, h2]
  · intro h1 h2
    cases fuel with
    | zero => rfl
    | succ n =>
        simp only [crawl_page]
        split
        · rfl
        · simp [h1, h2]
  · intro hv h1 hd hf
    cases fuel with
    | zero => exact absurd hf (by omega)
    | succ n =>
        have hnd : ¬ depth > cfg.max_internal := by omega
        simp only [crawl_page]
        rw [if_neg hv, if_pos h1, if_neg hnd]
        exact crawl_fetch_mem env cfg n (stripFragment url) depth st
  · intro hv h1 hu hd hf
    cases fuel with
    | zero => exact absurd hf (by omega)
    | succ n =>
        have hnd : ¬ (cfg.use_external = false ∨ depth > cfg.max_external) := by
          rintro (hfalse | hgt)
          · rw [hu] at hfalse
            exact Bool.noConfusion hfalse
          · omega
        simp only [crawl_page]
        rw [if_neg hv, if_neg (by simp [h1]), if_neg hnd]
        exact crawl_fetch_mem env cfg n (stripFragment url) depth st
  · intro recurse normalized href h1 h2
    have hng : ¬ depth + 1 ≤ cfg.max_internal := by omega
    simp only [processLink]
    rw [if_neg (by simp [h1]), if_pos h1, if_neg hng]
  · intro recurse normalized href h1 hu h2
    have hng : ¬ (cfg.use_external = true ∧ depth + 1 ≤ cfg.max_external) := by
      rintro ⟨_, hle⟩
      omega
    simp only [processLink]
    rw [if_neg (by simp [hu]), if_neg (by simp [h1]), if_neg hng]

theorem c2_depth_gate_witness :
    crawl_page trivEnv extCfg 3 "http://s/x" 6 initState = initState ∧
    crawl_page trivEnv extCfg 3 "http://e/" 0 initState = initState ∧
    stripFragment "http://s/" ∈
      (crawl_page trivEnv extCfg 1 "http://s/" 5 initState).fetched ∧
    stripFragment "http://e/" ∈
      (crawl_page trivEnv extOnCfg 1 "http://e/" 0 initState).fetched ∧
    processLink trivEnv extCfg (crawl_page trivEnv extCfg 2) "http://s/" 5
        "http://s/y" initState =
      checkAndLog trivEnv "http://s/" "http://s/y" initState ∧
    processLink trivEnv extOnCfg (crawl_page trivEnv extOnCfg 2) "http://s/" 0
        "http://e/z" initState =
      checkAndLog trivEnv "http://s/" "http://e/z" initState :=
  ⟨(c2_depth_gate trivEnv extCfg 3 "http://s/x" 6 initState).1 (by decide)
      (by decide),
   (c2_depth_gate trivEnv extCfg 3 "http://e/" 0 initState).2.1 (by decide)
      (Or.inl (by decide)),
   (c2_depth_gate trivEnv extCfg 1 "http://s/" 5 initState).2.2.1 (by decide)
      (by decide) (by decide) (by decide),
   (c2_depth_gate trivEnv extOnCfg 1 "http://e/" 0 initState).2.2.2.1
      (by decide) (by decide) (by decide) (by decide) (by decide),
   (c2_depth_gate trivEnv extCfg 3 "u" 5 initState).2.2.2.2.1
      (crawl_page trivEnv extCfg 2) "http://s/" "http://s/y" (by decide)
      (by decide),
   (c2_depth_gate trivEnv extOnCfg 3 "u" 0 initState).2.2.2.2.2
      (crawl_page trivEnv extOnCfg 2) "http://s/" "http://e/z" (by decide)
      (by decide) (by decide)⟩

/-- C3: after any crawl from the initial state, `link_counter` equals
`ok_counter + broken_counter`; and each `check_link` call bumps
`link_counter` exactly once and exactly one of `ok_counter` (status < 400)
or `broken_counter` (status ≥ 400, or a transport exception). -/
theorem c3_counters (env : Env) (cfg : Config) (fuel : Nat) (url : String)
    (depth : Int) (b l : String) (st : CrawlState) :
    (crawl_page env cfg fuel url depth initState).link_counter =
      (crawl_page env cfg fuel url depth initState).ok_counter +
      (crawl_page env cfg fuel url depth initState).broken_counter ∧
    (check_link env b l st).2.link_counter = st.link_counter + 1 ∧
    (∀ c, env.head (env.urljoin b l) = .ok c → c < 400 →
      (check_link env b l st).2.ok_counter = st.ok_counter + 1 ∧
      (check_link env b l st).2.broken_counter = st.broken_counter) ∧
    (∀ c, env.head (env.urljoin b l) = .ok c → 400 ≤ c →
      (check_link env b l st).2.broken_counter = st.broken_counter + 1 ∧
      (check_link env b l st).2.ok_counter = st.ok_counter) ∧
    (∀ e, env.head (env.urljoin b l) = .error e →
      (check_link env b l st).2.broken_counter = st.broken_counter + 1 ∧
      (check_link env b l st).2.ok_counter = st.ok_counter) := by
  refine ⟨?_, ?_, ?_, ?_, ?_⟩
  · exact crawl_page_countInv env cfg fuel url depth initState rfl
  · exact (check_link_fields env b l st).2.2.2.1
  · intro c hE hlt
    have hnge : ¬ 400 ≤ c := by omega
    constructor <;> simp [check_link, hE, hnge]
  · intro c hE hge
    constructor <;> simp [check_link, hE, hge]
  · intro e hE
    constructor <;> simp [check_link, hE]

theorem c3_counters_witness :
    (check_link trivEnv "http://s/" "x" initState).2.ok_counter = 1 ∧
    (check_link extEnv "http://s/" "x" initState).2.broken_counter = 1 :=
  ⟨((c3_counters trivEnv extCfg 0 "u" 0 "http://s/" "x" initState).2.2.1
      200 rfl (by decide)).1,
   ((c3_counters extEnv extCfg 0 "u" 0 "http://s/" "x" initState).2.2.2.2
      "refused" rfl).1⟩

/-- C4: when `use_external` is off, a link classified external is skipped
entirely by the per-link loop — the iteration is the identity on the crawl
state (nothing counted, nothing checked, nothing crawled), so processing the
link list is the same as processing it without that link. -/
theorem c4_external_link_skipped (env : Env) (cfg : Config)
    (recurse : String → Int → CrawlState → CrawlState)
    (normalized : String) (depth : Int) (href : String) (rest : List String)
    (st : CrawlState)
    (h1 : classifyInternal cfg.start_url
      (stripFragment (env.urljoin normalized href)) = false)
    (h2 : cfg.use_external = false) :
    process_links env cfg recurse normalized depth (href :: rest) st =
      process_links env cfg recurse normalized depth rest st ∧
    processLink env cfg recurse normalized depth href st = st := by
  have hskip : processLink env cfg recurse normalized depth href st = st := by
    simp only [processLink]
    rw [if_pos ⟨h1, h2⟩]
  refine ⟨?_, hskip⟩
  simp only [process_links]
  rw [hskip]

theorem c4_external_link_skipped_witness :
    process_links trivEnv extCfg (crawl_page trivEnv extCfg 0) "http://s/" 0
        ("http://e/x" :: []) initState =
      process_links trivEnv extCfg (crawl_page trivEnv extCfg 0) "http://s/" 0
        [] initState ∧
    processLink trivEnv extCfg (crawl_page trivEnv extCfg 0) "http://s/" 0
        "http://e/x" initState = initState :=
  c4_external_link_skipped trivEnv extCfg (crawl_page trivEnv extCfg 0)
    "http://s/" 0 "http://e/x" [] initState (by decide) (by decide)

/-- C5, counterexample: in a world where the seed page carries one external
link, a run with `use_external` off fetches the seed, encounters the external
link, and yet never invokes `check_link` — `link_counter` stays 0 (it is
bumped on every `check_link` call), so the external link's liveness is NOT
probed when follow-external is disabled, contrary to the claim. -/
theorem c5_external_probe_counterexample :
    extEnv.get "http://s/" = .ok ["http://e/"] ∧
    classifyInternal extCfg.start_url "http://e/" = false ∧
    extCfg.use_external = false ∧
    (crawl_page extEnv extCfg 3 "http://s/" 0 initState).fetched =
      ["http://s/"] ∧
    (crawl_page extEnv extCfg 3 "http://s/" 0 initState).link_counter = 0 :=
  ⟨rfl, by decide, by decide, by decide, by decide⟩

/-- C5, amended: `use_external` gates both the probing and the crawling of
external links.  When it is on, every link that reaches the per-link loop —
internal or external — is probed (the link counter strictly grows); when it
is off, an external link is skipped entirely, probe included. -/
theorem c5_probe_gated_by_follow_external (env : Env) (cfg : Config)
    (fuel : Nat) (normalized : String) (depth : Int) (href : String)
    (rest : List String) (st : CrawlState) :
    (cfg.use_external = true →
      st.link_counter + 1 ≤
        (process_links env cfg (crawl_page env cfg fuel) normalized depth
          (href :: rest) st).link_counter) ∧
    (cfg.use_external = false →
      classifyInternal cfg.start_url
        (stripFragment (env.urljoin normalized href)) = false →
      process_links env cfg (crawl_page env cfg fuel) normalized depth
          (href :: rest) st =
        process_links env cfg (crawl_page env cfg fuel) normalized depth
          rest st) := by
  constructor
  · intro hu
    have h2 : LinkLB (st.link_counter + 1) (checkAndLog env normalized href st) := by
      obtain ⟨_, _, _, f4, _⟩ := checkAndLog_fields env normalized href st
      unfold LinkLB
      omega
    have hpl : LinkLB (st.link_counter + 1)
        (processLink env cfg (crawl_page env cfg fuel) normalized depth href st) := by
      simp only [processLink]
      rw [if_neg (by rintro ⟨_, hf⟩; rw [hu] at hf; exact Bool.noConfusion hf)]
      split
      · split
        · exact crawl_page_linkLB env cfg _ fuel _ _ _ h2
        · exact h2
      · split
        · exact crawl_page_linkLB env cfg _ fuel _ _ _ h2
        · exact h2
    have hrest := process_links_linkLB env cfg (st.link_counter + 1) fuel
      normalized depth rest _ hpl
    simp only [process_links]
    exact hrest
  · intro hu h1
    have hskip : processLink env cfg (crawl_page env cfg fuel) normalized depth
        href st = st := by
      simp only [processLink]
      rw [if_pos ⟨h1, hu⟩]
    simp only [process_links]
    rw [hskip]

theorem c5_probe_gated_witness :
    initState.link_counter + 1 ≤
      (process_links trivEnv extOnCfg (crawl_page trivEnv extOnCfg 0)
        "http://s/" 0 ("http://e/" :: []) initState).link_counter ∧
    process_links trivEnv extCfg (crawl_page trivEnv extCfg 0) "http://s/" 0
        ("http://e/" :: []) initState =
      process_links trivEnv extCfg (crawl_page trivEnv extCfg 0) "http://s/" 0
        [] initState :=
  ⟨(c5_probe_gated_by_follow_external trivEnv extOnCfg 0 "http://s/" 0
      "http://e/" [] initState).1 (by decide),
   (c5_probe_gated_by_follow_external trivEnv extCfg 0 "http://s/" 0
      "http://e/" [] initState).2 (by decide) (by decide)⟩

/-- C6: the `__main__` block performs no seed-scheme validation at all — the
helper `is_http_url` exists but is never called.  With the seed
`ftp://a/` (whose scheme `is_http_url` rejects) the program still crawls:
the GET raises inside `crawl_page`, a `PAGE LOAD ERROR` row is logged, and
the process finishes with exit status 0, where the claim demands a startup
validation error and a non-zero exit before any crawling. -/
theorem c6_no_scheme_validation :
    is_http_url "ftp://a/" = false ∧
    (run_main ftpEnv ftpCfg 2).exitCode = 0 ∧
    (run_main ftpEnv ftpCfg 2).finalState.fetched = ["ftp://a/"] ∧
    (run_main ftpEnv ftpCfg 2).finalState.csv_rows =
      [("ftp://a/", "ftp://a/",
        "PAGE LOAD ERROR: No connection adapters were found")] := by
  decide

/-- C7: when the gate passes and the page GET fails, exactly one broken-link
record is appended — page as both source and target, reason prefixed
`PAGE LOAD ERROR: ` — `page_counter` is incremented for the page, no link
is extracted or checked (`link_counter` untouched, no other state change),
and `crawl_page` returns normally, so the crawl continues. -/
theorem c7_page_load_error (env : Env) (cfg : Config) (fuel : Nat)
    (url : String) (depth : Int) (st : CrawlState) (e : String)
    (hv : stripFragment url ∉ st.visited)
    (hgate : (classifyInternal cfg.start_url (stripFragment url) = true ∧
        depth ≤ cfg.max_internal) ∨
      (classifyInternal cfg.start_url (stripFragment url) = false ∧
        cfg.use_external = true ∧ depth ≤ cfg.max_external))
    (hget : env.get (stripFragment url) = .error e) :
    (crawl_page env cfg (fuel + 1) url depth st).csv_rows = st.csv_rows ++
      [(stripFragment url, stripFragment url, "PAGE LOAD ERROR: " ++ e)] ∧
    (crawl_page env cfg (fuel + 1) url depth st).broken_links = st.broken_links ++
      [(stripFragment url, stripFragment url, "PAGE LOAD ERROR: " ++ e)] ∧
    (crawl_page env cfg (fuel + 1) url depth st).page_counter =
      st.page_counter + 1 ∧
    (crawl_page env cfg (fuel + 1) url depth st).link_counter =
      st.link_counter ∧
    (crawl_page env cfg (fuel + 1) url depth st).visited =
      stripFragment url :: st.visited ∧
    (crawl_page env cfg (fuel + 1) url depth st).fetched =
      st.fetched ++ [stripFragment url] := by
  rw [crawl_page_get_error env cfg fuel url depth st e hv hgate hget]
  exact ⟨rfl, rfl, rfl, rfl, rfl, rfl⟩

theorem c7_page_load_error_witness :
    (crawl_page errEnv extCfg 1 "http://s/" 0 initState).csv_rows =
      [("http://s/", "http://s/", "PAGE LOAD ERROR: 404 Client Error")] ∧
    (crawl_page errEnv extCfg 1 "http://s/" 0 initState).page_counter = 1 ∧
    (crawl_page errEnv extCfg 1 "http://s/" 0 initState).link_counter = 0 ∧
    (crawl_page errEnv extCfg 1 "http://s/" 0 initState).fetched =
      ["http://s/"] := by
  have h := c7_page_load_error errEnv extCfg 0 "http://s/" 0 initState
    "404 Client Error" (by decide) (Or.inl ⟨by decide, by decide⟩) rfl
  exact ⟨h.1, h.2.2.1, h.2.2.2.1, h.2.2.2.2.2⟩

/-- C8, counterexample: an external task with follow-external off terminates
at the depth gate, and its NormalizedURL is NOT in the visited set afterwards
— the URL is recorded only after the gate passes (line 94 comes after lines
86-92), so the claim that gate-terminated tasks are already recorded is
false. -/
theorem c8_intake_order_counterexample :
    classifyInternal extCfg.start_url (stripFragment "http://e/") = false ∧
    extCfg.use_external = false ∧
    stripFragment "http://e/" ∉ (initState : CrawlState).visited ∧
    crawl_page trivEnv extCfg 3 "http://e/" 0 initState = initState ∧
    (crawl_page trivEnv extCfg 3 "http://e/" 0 initState).visited = [] := by
  decide

/-- C8, amended: the visited-membership check does come first, but the URL is
recorded only after the depth gate passes: a task that terminates at the
depth gate leaves the whole crawl state — the visited set included —
unchanged, while a task that passes the gate does get its URL recorded. -/
theorem c8_record_after_gate (env : Env) (cfg : Config) (fuel : Nat)
    (url : String) (depth : Int) (st : CrawlState) :
    (((classifyInternal cfg.start_url (stripFragment url) = true ∧
        depth > cfg.max_internal) ∨
      (classifyInternal cfg.start_url (stripFragment url) = false ∧
        (cfg.use_external = false ∨ depth > cfg.max_external))) →
      crawl_page env cfg fuel url depth st = st) ∧
    (stripFragment url ∉ st.visited →
      ((classifyInternal cfg.start_url (stripFragment url) = true ∧
        depth ≤ cfg.max_internal) ∨
      (classifyInternal cfg.start_url (stripFragment url) = false ∧
        cfg.use_external = true ∧ depth ≤ cfg.max_external)) →
      0 < fuel →
      stripFragment url ∈ (crawl_page env cfg fuel url depth st).visited) := by
  constructor
  · intro hgate
    cases fuel with
    | zero => rfl
    | succ n =>
        simp only [crawl_page]
        split
        · rfl
        · rcases hgate with ⟨h1, h2⟩ | ⟨h1, h2⟩
          · simp [h1, h2]
          · simp [h1, h2]
  · intro hv hgate hf
    cases fuel with
    | zero => exact absurd hf (by omega)
    | succ n =>
        simp only [crawl_page]
        rw [if_neg hv]
        rcases hgate with ⟨h1, h2⟩ | ⟨h1, h2, h3⟩
        · have hnd : ¬ depth > cfg.max_internal := by omega
          rw [if_pos h1, if_neg hnd]
          exact crawl_fetch_visited_mem env cfg n (stripFragment url) depth st
        · have hnd : ¬ (cfg.use_external = false ∨ depth > cfg.max_external) := by
            rintro (hfalse | hgt)
            · rw [h2] at hfalse
              exact Bool.noConfusion hfalse
            · omega
          rw [if_neg (by simp [h1]), if_neg hnd]
          exact crawl_fetch_visited_mem env cfg n (stripFragment url) depth st

theorem c8_record_after_gate_witness :
    crawl_page trivEnv extCfg 3 "http://e/" 0 initState = initState ∧
    stripFragment "http://s/" ∈
      (crawl_page trivEnv extCfg 1 "http://s/" 0 initState).visited :=
  ⟨(c8_record_after_gate trivEnv extCfg 3 "http://e/" 0 initState).1
      (Or.inr ⟨by decide, Or.inl (by decide)⟩),
   (c8_record_after_gate trivEnv extCfg 1 "http://s/" 0 initState).2
      (by decide) (Or.inl ⟨by decide, by decide⟩) (by decide)⟩

/-- C9, counterexample: classification compares against the WHOLE seed URL
string, not against the seed's origin.  With seed
`https://example.com/blog`, the URL `https://example.com/about` does have
the seed's origin `https://example.com` as a literal prefix, yet the code
classifies it as external — refuting the claim's "Internal iff the seed's
origin is a literal prefix". -/
theorem c9_origin_classify_counterexample :
    seedOriginSpec "https://example.com/blog" = "https://example.com" ∧
    startswith "https://example.com/about"
      (seedOriginSpec "https://example.com/blog") = true ∧
    classifyInternal "https://example.com/blog" "https://example.com/about"
      = false := by
  decide

/-- C9, amended: a URL is classified Internal iff its string has the FULL
seed URL, exactly as supplied (path included), as a literal prefix; and the
classification is applied to fragment-stripped strings, so two URLs that
agree after fragment stripping receive the same classification.  No parsing
beyond the string comparison is involved. -/
theorem c9_classify_is_seed_string_match (s u : String) :
    (classifyInternal s u = true ↔ ∃ t, u = s ++ t) ∧
    (∀ u1 u2 : String, stripFragment u1 = stripFragment u2 →
      classifyInternal s (stripFragment u1) =
        classifyInternal s (stripFragment u2)) := by
  constructor
  · exact startswith_iff_append u s
  · intro u1 u2 h
    rw [h]

theorem c9_classify_witness :
    classifyInternal "http://a" "http://a/b" = true ∧
    classifyInternal "http://a" (stripFragment "http://a/p#1") =
      classifyInternal "http://a" (stripFragment "http://a/p#2") :=
  ⟨(c9_classify_is_seed_string_match "http://a" "http://a/b").1.mpr
      ⟨"/b", by decide⟩,
   (c9_classify_is_seed_string_match "http://a" "u").2 "http://a/p#1"
      "http://a/p#2" (by decide)⟩

/-- C10: the page-load-error path touches no link counter — `link_counter`,
`ok_counter` and `broken_counter` are all unchanged while one CSV row is
appended — and consequently a run can emit strictly more CSV rows than its
final `broken_counter`, as the concrete world where the seed GET fails
shows (one row, `broken_counter = 0`). -/
theorem c10_page_load_error_not_counted (env : Env) (cfg : Config)
    (fuel : Nat) (url : String) (depth : Int) (st : CrawlState) (e : String)
    (hv : stripFragment url ∉ st.visited)
    (hgate : (classifyInternal cfg.start_url (stripFragment url) = true ∧
        depth ≤ cfg.max_internal) ∨
      (classifyInternal cfg.start_url (stripFragment url) = false ∧
        cfg.use_external = true ∧ depth ≤ cfg.max_external))
    (hget : env.get (stripFragment url) = .error e) :
    ((crawl_page env cfg (fuel + 1) url depth st).link_counter =
        st.link_counter ∧
      (crawl_page env cfg (fuel + 1) url depth st).ok_counter =
        st.ok_counter ∧
      (crawl_page env cfg (fuel + 1) url depth st).broken_counter =
        st.broken_counter ∧
      (crawl_page env cfg (fuel + 1) url depth st).csv_rows.length =
        st.csv_rows.length + 1) ∧
    ((crawl_page errEnv extCfg 2 "http://s/" 0 initState).csv_rows.length = 1 ∧
      (crawl_page errEnv extCfg 2 "http://s/" 0 initState).broken_counter
        = 0) := by
  constructor
  · rw [crawl_page_get_error env cfg fuel url depth st e hv hgate hget]
    refine ⟨rfl, rfl, rfl, ?_⟩
    simp [recordBroken, markFetch]
  · constructor <;> decide

theorem c10_page_load_error_not_counted_witness :
    ((crawl_page errEnv extCfg 1 "http://s/" 0 initState).link_counter =
        initState.link_counter ∧
      (crawl_page errEnv extCfg 1 "http://s/" 0 initState).ok_counter =
        initState.ok_counter ∧
      (crawl_page errEnv extCfg 1 "http://s/" 0 initState).broken_counter =
        initState.broken_counter ∧
      (crawl_page errEnv extCfg 1 "http://s/" 0 initState).csv_rows.length =
        initState.csv_rows.length + 1) ∧
    ((crawl_page errEnv extCfg 2 "http://s/" 0 initState).csv_rows.length = 1 ∧
      (crawl_page errEnv extCfg 2 "http://s/" 0 initState).broken_counter
        = 0) :=
  c10_page_load_error_not_counted errEnv extCfg 0 "http://s/" 0 initState
    "404 Client Error" (by decide) (Or.inl ⟨by decide, by decide⟩) rfl

end Deadlink
